import Mathlib

/-!
Shallow embedding of the monitoring subsystem of
`home-kitchen-manager-api` (`src/api/v1/monitoring.py`), together with
proofs of the specified behavioural properties.

Modelling conventions:
* Timestamps and durations are exact rationals (`ℚ`), measured in seconds.
  `datetime` arithmetic (`timedelta(minutes=5)` etc.) becomes rational
  subtraction.  Python's percentile indices `int(len * 0.95)` /
  `int(len * 0.99)` are modelled as the natural-number divisions
  `n * 95 / 100` / `n * 99 / 100`: for every list length reachable here the
  IEEE-754 products floor to exactly these values.
* `collections.deque(maxlen = C)` is a `List` with the newest element at
  the end; appending drops the overflow from the front (`dequeAppend`).
* `defaultdict` maps are total functions with the default as initial value.
* Exception-raising and `try`/`except` blocks are embedded explicitly where
  a claim is about them (the summary's catch-all branch, the alert pass).
-/

set_option maxRecDepth 8000

namespace Monitoring

/-- Wall-clock instants and durations, in seconds. -/
abbrev Time := ℚ

/-- `RequestMetrics` dataclass (monitoring.py lines 15-24). -/
structure RequestMetrics where
  timestamp : Time
  method : String
  path : String
  status_code : ℕ
  duration : ℚ
  user_id : Option ℕ := none
  error_code : Option String := none
deriving Repr, DecidableEq

/-- `SystemMetrics` dataclass (lines 26-37). -/
structure SystemMetrics where
  timestamp : Time
  cpu_percent : ℚ
  memory_percent : ℚ
  memory_mb : ℚ
  disk_percent : ℚ
  active_connections : ℕ
  request_count : ℕ
  error_count : ℕ
  avg_response_time : ℚ
deriving Repr, DecidableEq

/-- One value of the `endpoint_stats` defaultdict (lines 47-52). -/
structure EndpointStat where
  count : ℕ
  total_time : ℚ
  error_count : ℕ
  last_accessed : Option Time
deriving Repr, DecidableEq

/-- Default value manufactured by the `endpoint_stats` defaultdict. -/
def EndpointStat.init : EndpointStat := ⟨0, 0, 0, none⟩

/-- One value of the `user_activity` defaultdict (lines 53-57). -/
structure UserStat where
  request_count : ℕ
  last_activity : Option Time
  error_count : ℕ
deriving Repr, DecidableEq

/-- Default value manufactured by the `user_activity` defaultdict. -/
def UserStat.init : UserStat := ⟨0, none, 0⟩

/-- Append to a `collections.deque(maxlen := maxlen)`: add `x` at the right
end and discard the overflow from the left. -/
def dequeAppend (maxlen : ℕ) (buf : List α) (x : α) : List α :=
  let b := buf ++ [x]
  b.drop (b.length - maxlen)

/-- State of a `MetricsCollector` (lines 39-59).  The lock only serialises
mutation and is not part of the sequential state. -/
structure MetricsCollector where
  max_history : ℕ
  request_metrics : List RequestMetrics
  system_metrics : List SystemMetrics
  error_counts : String → ℕ
  endpoint_stats : String → EndpointStat
  user_activity : ℕ → UserStat
  start_time : Time

/-- `MetricsCollector.__init__(max_history)` (lines 42-59); the snapshot
deque is created with `maxlen=1000`. -/
def MetricsCollector.init (max_history : ℕ) (start_time : Time) : MetricsCollector :=
  { max_history := max_history
    request_metrics := []
    system_metrics := []
    error_counts := fun _ => 0
    endpoint_stats := fun _ => EndpointStat.init
    user_activity := fun _ => UserStat.init
    start_time := start_time }

/-- The `f"{metrics.method} {metrics.path}"` key of `endpoint_stats`. -/
def endpointKey (method path : String) : String := method ++ " " ++ path

/-- `MetricsCollector.record_request` (lines 61-84).  Python's
`if metrics.user_id:` is falsy both for `None` and for user id `0`. -/
def record_request (c : MetricsCollector) (m : RequestMetrics) : MetricsCollector :=
  let key := endpointKey m.method m.path
  let stats := c.endpoint_stats key
  let stats := { stats with
    count := stats.count + 1
    total_time := stats.total_time + m.duration
    last_accessed := some m.timestamp }
  let stats := if 400 ≤ m.status_code then
      { stats with error_count := stats.error_count + 1 } else stats
  let error_counts := if 400 ≤ m.status_code then
      match m.error_code with
      | some ec => fun k => if k = ec then c.error_counts k + 1 else c.error_counts k
      | none => c.error_counts
    else c.error_counts
  let user_activity :=
    match m.user_id with
    | some uid =>
      if uid ≠ 0 then
        let us := c.user_activity uid
        let us := { us with
          request_count := us.request_count + 1
          last_activity := some m.timestamp }
        let us := if 400 ≤ m.status_code then
            { us with error_count := us.error_count + 1 } else us
        fun k => if k = uid then us else c.user_activity k
      else c.user_activity
    | none => c.user_activity
  { c with
    request_metrics := dequeAppend c.max_history c.request_metrics m
    endpoint_stats := fun k => if k = key then stats else c.endpoint_stats k
    error_counts := error_counts
    user_activity := user_activity }

/-- The resource readings that `psutil` supplies to one snapshot tick. -/
structure SystemSample where
  cpu_percent : ℚ
  memory_percent : ℚ
  memory_mb : ℚ
  disk_percent : ℚ
  active_connections : ℕ
deriving Repr, DecidableEq

/-- The `SystemMetrics` snapshot assembled by `record_system_metrics`
(lines 93-119): resource readings plus count, error count and average
duration of the requests of the last 60 seconds. -/
def snapshotOf (c : MetricsCollector) (now : Time) (s : SystemSample) : SystemMetrics :=
  let recent := c.request_metrics.filter (fun m => now - 60 ≤ m.timestamp)
  let request_count := recent.length
  let error_count := (recent.filter (fun m => 400 ≤ m.status_code)).length
  let avg_response_time : ℚ :=
    if 0 < request_count then (recent.map (·.duration)).sum / request_count else 0
  { timestamp := now
    cpu_percent := s.cpu_percent
    memory_percent := s.memory_percent
    memory_mb := s.memory_mb
    disk_percent := s.disk_percent
    active_connections := s.active_connections
    request_count := request_count
    error_count := error_count
    avg_response_time := avg_response_time }

/-- `MetricsCollector.record_system_metrics` (lines 86-127) on a successful
sample: derive last-minute request statistics and append a snapshot to the
`maxlen=1000` deque. -/
def record_system_metrics (c : MetricsCollector) (now : Time) (s : SystemSample) :
    MetricsCollector :=
  { c with system_metrics := dequeAppend 1000 c.system_metrics (snapshotOf c now s) }

/-- One mutation of the collector: either a request ingestion or a
snapshot tick. -/
inductive CollectorOp where
  | req (m : RequestMetrics)
  | sys (now : Time) (s : SystemSample)
deriving Repr

/-- Apply one mutation to the collector state. -/
def applyOp (c : MetricsCollector) : CollectorOp → MetricsCollector
  | .req m => record_request c m
  | .sys now s => record_system_metrics c now s

/-- The requests of the last `window` seconds, as filtered at
lines 97-100 (60 s window) and lines 139-143 (300 s window). -/
def recentRequests (c : MetricsCollector) (now window : Time) : List RequestMetrics :=
  c.request_metrics.filter (fun m => now - window ≤ m.timestamp)

/-- The trailing-five-minute error rate of `get_health_status`
(lines 139-147): errors (status ≥ 400) over total, `0` on an empty window. -/
def errorRate5min (c : MetricsCollector) (now : Time) : ℚ :=
  let recent := recentRequests c now 300
  if 0 < recent.length then
    ((recent.filter (fun m => 400 ≤ m.status_code)).length : ℚ) / recent.length
  else 0

/-- Result dictionary of `get_health_status` (lines 164-176). -/
structure HealthStatus where
  status : String
  uptime_seconds : ℚ
  issues : List String
  requests_last_5min : ℕ
  error_rate : ℚ
  cpu_percent : Option ℚ
  memory_percent : Option ℚ
  avg_response_time : Option ℚ
deriving Repr, DecidableEq

/-- `MetricsCollector.get_health_status` (lines 129-176).  `recent_system`
is the last snapshot if any; all three status checks sit inside
`if recent_system:`. -/
def get_health_status (c : MetricsCollector) (now : Time) : HealthStatus :=
  let recent_system := c.system_metrics.getLast?
  let recent := recentRequests c now 300
  let total_requests := recent.length
  let error_rate := errorRate5min c now
  let si : String × List String :=
    match recent_system with
    | none => ("healthy", [])
    | some s =>
      let si := if 80 < s.cpu_percent
        then ("degraded", ["High CPU usage"]) else ("healthy", [])
      let si := if 85 < s.memory_percent
        then ("degraded", si.2 ++ ["High memory usage"]) else si
      if 1/10 < error_rate
        then ("unhealthy", si.2 ++ ["High error rate"]) else si
  { status := si.1
    uptime_seconds := now - c.start_time
    issues := si.2
    requests_last_5min := total_requests
    error_rate := error_rate
    cpu_percent := (recent_system.map (·.cpu_percent))
    memory_percent := (recent_system.map (·.memory_percent))
    avg_response_time := (recent_system.map (·.avg_response_time)) }

/-- The requests of the `hours`-long lookback window of
`get_metrics_summary` (lines 189-196). -/
def periodRequests (c : MetricsCollector) (now : Time) (hours : ℕ) : List RequestMetrics :=
  c.request_metrics.filter (fun m => now - hours * 3600 ≤ m.timestamp)

/-- Successful result dictionary of `get_metrics_summary` (lines 228-240). -/
structure MetricsSummary where
  period_hours : ℕ
  total_requests : ℕ
  error_rate : ℚ
  avg : ℚ
  p95 : ℚ
  p99 : ℚ
  top_endpoints : List (String × ℕ)
  error_breakdown : List (String × ℕ)
deriving Repr, DecidableEq

/-- Outcome of `get_metrics_summary`: the `"No data available"` dictionary,
a summary, or the catch-all `except` branch (lines 242-244) that would
swallow e.g. an out-of-range indexing error. -/
inductive SummaryResult where
  | noData
  | ok (s : MetricsSummary)
  | caught
deriving Repr, DecidableEq

/-- Keys of `l` in first-occurrence order with their multiplicities —
the content and order of a Python `defaultdict(int)` counter filled by
iterating `l`. -/
def countsInOrder (l : List String) : List (String × ℕ) :=
  (l.foldl (fun acc k => if k ∈ acc then acc else acc ++ [k]) []).map
    (fun k => (k, (l.filter (fun x => x = k)).length))

/-- `MetricsCollector.get_metrics_summary` (lines 186-244).  The percentile
indices `int(n * 0.95)` / `int(n * 0.99)` are the floors `n * 95 / 100` /
`n * 99 / 100`; Python's stable ascending `sorted(...)` is an insertion
sort; `top_endpoints` is the count-descending stable sort of the
per-endpoint counter, truncated to 10. -/
def get_metrics_summary (c : MetricsCollector) (now : Time) (hours : ℕ) : SummaryResult :=
  let period := periodRequests c now hours
  if period.isEmpty then .noData
  else
    let total_requests := period.length
    let error_requests := (period.filter (fun m => 400 ≤ m.status_code)).length
    let error_rate : ℚ := (error_requests : ℚ) / total_requests
    let response_times := period.map (·.duration)
    let sortedTimes := response_times.insertionSort (· ≤ ·)
    match sortedTimes.get? (response_times.length * 95 / 100),
          sortedTimes.get? (response_times.length * 99 / 100) with
    | some p95, some p99 =>
      let endpoint_counts := countsInOrder (period.map (fun m => endpointKey m.method m.path))
      let top_endpoints := (endpoint_counts.insertionSort (fun a b => b.2 ≤ a.2)).take 10
      let error_breakdown := countsInOrder
        ((period.filter (fun m => 400 ≤ m.status_code ∧ m.error_code.isSome)).map
          (fun m => m.error_code.getD ""))
      .ok { period_hours := hours
            total_requests := total_requests
            error_rate := error_rate
            avg := response_times.sum / response_times.length
            p95 := p95
            p99 := p99
            top_endpoints := top_endpoints
            error_breakdown := error_breakdown }
    | _, _ => .caught

/-- Outcome of `PerformanceProfiler.get_operation_stats`: the `{count: 0}`
dictionary, a statistics dictionary, or an escaped indexing error. -/
inductive OpStatsResult where
  | empty
  | ok (count : ℕ) (avg min max p50 p95 p99 : ℚ)
  | indexOut
deriving Repr, DecidableEq

/-- `PerformanceProfiler.get_operation_stats` (lines 432-449) on the
recorded times of one operation. -/
def get_operation_stats (times : List ℚ) : OpStatsResult :=
  if times.isEmpty then .empty
  else
    let times_sorted := times.insertionSort (· ≤ ·)
    match times.min?, times.max?,
          times_sorted.get? (times_sorted.length / 2),
          times_sorted.get? (times_sorted.length * 95 / 100),
          times_sorted.get? (times_sorted.length * 99 / 100) with
    | some mn, some mx, some p50, some p95, some p99 =>
      .ok times.length (times.sum / times.length) mn mx p50 p95 p99
    | _, _, _, _, _ => .indexOut

/-- The static `alert_thresholds` dictionary (lines 316-322). -/
structure AlertThresholds where
  error_rate : ℚ
  response_time_p95 : ℚ
  cpu_percent : ℚ
  memory_percent : ℚ
  disk_percent : ℚ
deriving Repr, DecidableEq

/-- Values set in `AlertManager.__init__`. -/
def alert_thresholds : AlertThresholds :=
  { error_rate := 5/100
    response_time_p95 := 2
    cpu_percent := 80
    memory_percent := 85
    disk_percent := 90 }

/-- An alert emission: one `self.logger.log(...)` call in
`_trigger_alert` (lines 379-389). -/
structure Alert where
  alert_type : String
  severity : String
  fired_at : Time
deriving Repr, DecidableEq

/-- Mutable state of the `AlertManager`: the `alert_history` map from
alert type to last-fired timestamp (line 323). -/
structure AlertManager where
  alert_history : String → Option Time

/-- `AlertManager.__init__`: empty history. -/
def AlertManager.init : AlertManager := ⟨fun _ => none⟩

/-- `AlertManager._trigger_alert` (lines 369-389): suppressed when the
type fired less than `alert_cooldown = 300` seconds ago, otherwise record
`now` and emit the alert. -/
def trigger_alert (am : AlertManager) (now : Time) (alert_type severity : String) :
    AlertManager × List Alert :=
  let fire : AlertManager × List Alert :=
    (⟨fun k => if k = alert_type then some now else am.alert_history k⟩,
     [⟨alert_type, severity, now⟩])
  match am.alert_history alert_type with
  | some last => if now - last < 300 then (am, []) else fire
  | none => fire

/-- Line 333: `error_rate > self.alert_thresholds["error_rate"]`. -/
def errCond (hs : HealthStatus) : Bool := alert_thresholds.error_rate < hs.error_rate

/-- Line 342: `avg_response_time and avg_response_time > ...`.  Python's
truthiness guard skips `None`; a value of `0.0` is also falsy, but a zero
value is below the strict threshold anyway. -/
def avgCond (hs : HealthStatus) : Bool :=
  match hs.avg_response_time with
  | some v => alert_thresholds.response_time_p95 < v
  | none => false

/-- Line 351: `cpu_percent and cpu_percent > ...` (same truthiness). -/
def cpuCond (hs : HealthStatus) : Bool :=
  match hs.cpu_percent with
  | some v => alert_thresholds.cpu_percent < v
  | none => false

/-- Line 359: `memory_percent and memory_percent > ...` (same truthiness). -/
def memCond (hs : HealthStatus) : Bool :=
  match hs.memory_percent with
  | some v => alert_thresholds.memory_percent < v
  | none => false

/-- One guarded `_trigger_alert` call inside `check_alerts`. -/
def checkStep (am : AlertManager) (now : Time) (cond : Bool) (ty sev : String) :
    AlertManager × List Alert :=
  if cond then trigger_alert am now ty sev else (am, [])

/-- `AlertManager.check_alerts` (lines 326-367) when no condition raises:
the four guarded threshold conditions in program order.  No condition
consults the configured `disk_percent` threshold — `get_health_status`
does not even expose a disk reading. -/
def check_alerts (am : AlertManager) (c : MetricsCollector) (now : Time) :
    AlertManager × List Alert :=
  let hs := get_health_status c now
  let r1 := checkStep am now (errCond hs) "high_error_rate" "critical"
  let r2 := checkStep r1.1 now (avgCond hs) "slow_response_time" "warning"
  let r3 := checkStep r2.1 now (cpuCond hs) "high_cpu_usage" "warning"
  let r4 := checkStep r3.1 now (memCond hs) "high_memory_usage" "critical"
  (r4.1, r1.2 ++ r2.2 ++ r3.2 ++ r4.2)

/-- Behaviour of one alert condition inside a `check_alerts` pass: it
emits an alert, stays quiet, or raises an exception. -/
inductive StepResult where
  | fires
  | quiet
  | raises
deriving Repr, DecidableEq

/-- Control flow of `check_alerts`'s single `try`/`except` (lines 326-367)
over a pass of condition outcomes: conditions run in order, the first
raising condition jumps to the `except` handler (which logs — flag
`true`) and the function returns; no exception escapes.  Returns the
indices of the conditions whose alerts were emitted. -/
def runAlertPass : ℕ → List StepResult → List ℕ × Bool
  | _, [] => ([], false)
  | _, .raises :: _ => ([], true)
  | i, .fires :: rest =>
    let r := runAlertPass (i + 1) rest
    (i :: r.1, r.2)
  | i, .quiet :: rest => runAlertPass (i + 1) rest

/-- What the wrapped application does on one HTTP request: either it
completes, having sent `status` in its `http.response.start` message, or
it raises. -/
inductive HandlerOutcome (ε : Type) where
  | ok (status : ℕ)
  | raised (e : ε)

/-- `MonitoringMiddleware.__call__` (lines 256-309) for an HTTP scope:
the status is the one sent by the app, overwritten with 500 if the app
raised; the `finally` block records exactly one `RequestMetrics` with the
wall-clock duration `t1 - t0`; an exception still propagates afterwards. -/
def middlewareCall (ε : Type) (c : MetricsCollector) (method path : String)
    (outcome : HandlerOutcome ε) (t0 t1 : ℚ) (now : Time) :
    Except ε ℕ × MetricsCollector :=
  let status_code : ℕ := match outcome with
    | .ok s => s
    | .raised _ => 500
  let m : RequestMetrics :=
    { timestamp := now
      method := method
      path := path
      status_code := status_code
      duration := t1 - t0 }
  let c := record_request c m
  (match outcome with
   | .ok s => .ok s
   | .raised e => .error e, c)

/-- Repeatedly invoke `_trigger_alert` for one alert type at the given
instants, threading the manager state and collecting the emitted alerts. -/
def trigger_times (ty sev : String) (am : AlertManager) : List Time → AlertManager × List Alert
  | [] => (am, [])
  | t :: ts =>
    let r := trigger_alert am t ty sev
    let rest := trigger_times ty sev r.1 ts
    (rest.1, r.2 ++ rest.2)

/-- The ascending-sorted list of durations of the lookback window, the
list indexed by `get_metrics_summary`'s percentile computation. -/
def sortedDurations (c : MetricsCollector) (now : Time) (hours : ℕ) : List ℚ :=
  ((periodRequests c now hours).map (·.duration)).insertionSort (· ≤ ·)

/-- The spec's percentile fixture: durations `0.1, 0.2, ..., 1.0`. -/
def fixtureDurations : List ℚ :=
  [1/10, 2/10, 3/10, 4/10, 5/10, 6/10, 7/10, 8/10, 9/10, 1]

/-- Ten successful requests carrying the fixture durations. -/
def fixtureRecords : List RequestMetrics :=
  fixtureDurations.map (fun d =>
    { timestamp := 0, method := "GET", path := "/test", status_code := 200, duration := d })

/-- Collector that ingested the ten fixture requests. -/
def fixtureCollector : MetricsCollector :=
  fixtureRecords.foldl record_request (MetricsCollector.init 10000 0)

/-- The spec's health scenario: five requests at status 200 followed by
one at status 500, all inside the trailing five minutes. -/
def scenarioRecords : List RequestMetrics :=
  [{ timestamp := 0, method := "GET", path := "/test", status_code := 200, duration := 1/10 },
   { timestamp := 0, method := "GET", path := "/test", status_code := 200, duration := 1/10 },
   { timestamp := 0, method := "GET", path := "/test", status_code := 200, duration := 1/10 },
   { timestamp := 0, method := "GET", path := "/test", status_code := 200, duration := 1/10 },
   { timestamp := 0, method := "GET", path := "/test", status_code := 200, duration := 1/10 },
   { timestamp := 0, method := "GET", path := "/test", status_code := 500, duration := 1/10 }]

/-- Collector that ingested the health-scenario requests and nothing else:
in particular its snapshot buffer is empty. -/
def scenarioCollector : MetricsCollector :=
  scenarioRecords.foldl record_request (MetricsCollector.init 10000 0)

/-- A benign resource sample except for disk usage at 95 %. -/
def diskSample : SystemSample :=
  { cpu_percent := 10, memory_percent := 10, memory_mb := 100,
    disk_percent := 95, active_connections := 1 }

/-- A collector whose only state is one snapshot showing 95 % disk usage:
every alert threshold except `disk_percent` is comfortably met. -/
def diskCollector : MetricsCollector :=
  record_system_metrics (MetricsCollector.init 10000 0) 0 diskSample

/-- The health scenario collector additionally holding one benign
snapshot (CPU 10 %, memory 10 %). -/
def scenarioCollectorWithSnapshot : MetricsCollector :=
  record_system_metrics scenarioCollector 0
    { cpu_percent := 10, memory_percent := 10, memory_mb := 100,
      disk_percent := 10, active_connections := 1 }

/-- A collector whose only state is one snapshot showing 90 % CPU usage
and nothing else above a threshold. -/
def cpuCollector : MetricsCollector :=
  record_system_metrics (MetricsCollector.init 10000 0) 0
    { cpu_percent := 90, memory_percent := 10, memory_mb := 100,
      disk_percent := 10, active_connections := 1 }

/-! ## Buffer lemmas -/

lemma length_dequeAppend_le (C : ℕ) (buf : List α) (x : α) :
    (dequeAppend C buf x).length ≤ C := by
  simp only [dequeAppend, List.length_drop, List.length_append, List.length_cons,
    List.length_nil]
  omega

lemma foldl_dequeAppend (C : ℕ) (ms : List α) :
    ms.foldl (dequeAppend C) [] = ms.drop (ms.length - C) := by
  induction ms using List.reverseRecOn with
  | nil => simp
  | append_singleton ms x ih =>
    rw [List.foldl_append, List.foldl_cons, List.foldl_nil, ih]
    show dequeAppend C (ms.drop (ms.length - C)) x = _
    unfold dequeAppend
    rw [← List.drop_append_of_le_length (Nat.sub_le ms.length C), List.drop_drop]
    congr 1
    simp only [List.length_append, List.length_drop, List.length_cons, List.length_nil]
    omega

@[simp] lemma record_request_request_metrics (c : MetricsCollector) (m : RequestMetrics) :
    (record_request c m).request_metrics = dequeAppend c.max_history c.request_metrics m := rfl

@[simp] lemma record_request_max_history (c : MetricsCollector) (m : RequestMetrics) :
    (record_request c m).max_history = c.max_history := rfl

@[simp] lemma record_request_system_metrics (c : MetricsCollector) (m : RequestMetrics) :
    (record_request c m).system_metrics = c.system_metrics := rfl

@[simp] lemma record_system_metrics_request_metrics (c : MetricsCollector) (now : Time)
    (s : SystemSample) : (record_system_metrics c now s).request_metrics = c.request_metrics :=
  rfl

@[simp] lemma record_system_metrics_max_history (c : MetricsCollector) (now : Time)
    (s : SystemSample) : (record_system_metrics c now s).max_history = c.max_history := rfl

lemma record_system_metrics_system_length (c : MetricsCollector) (now : Time)
    (s : SystemSample) : (record_system_metrics c now s).system_metrics.length ≤ 1000 :=
  length_dequeAppend_le _ _ _

lemma foldl_record_request_buffer (ms : List RequestMetrics) :
    ∀ c : MetricsCollector,
      (ms.foldl record_request c).request_metrics
        = ms.foldl (dequeAppend c.max_history) c.request_metrics := by
  induction ms with
  | nil => intro c; rfl
  | cons m ms ih =>
    intro c
    simp only [List.foldl_cons]
    rw [ih]
    simp

lemma foldl_applyOp_max_history (ops : List CollectorOp) :
    ∀ c : MetricsCollector, (ops.foldl applyOp c).max_history = c.max_history := by
  induction ops with
  | nil => intro c; rfl
  | cons op ops ih =>
    intro c
    simp only [List.foldl_cons]
    rw [ih]
    cases op <;> simp [applyOp]

lemma foldl_applyOp_lengths (ops : List CollectorOp) :
    ∀ c : MetricsCollector,
      c.request_metrics.length ≤ c.max_history →
      c.system_metrics.length ≤ 1000 →
      (ops.foldl applyOp c).request_metrics.length ≤ c.max_history
      ∧ (ops.foldl applyOp c).system_metrics.length ≤ 1000 := by
  induction ops with
  | nil => intro c h1 h2; exact ⟨h1, h2⟩
  | cons op ops ih =>
    intro c h1 h2
    simp only [List.foldl_cons]
    cases op with
    | req m =>
      have h := ih (record_request c m)
        (by simpa using length_dequeAppend_le c.max_history c.request_metrics m)
        (by simpa using h2)
      simpa using h
    | sys now s =>
      have h := ih (record_system_metrics c now s)
        (by simpa using h1)
        (record_system_metrics_system_length c now s)
      simpa using h

/-- C2: a `record_request` sequence longer than the request-buffer
capacity `C` leaves exactly the `C` most recent records in arrival order,
and along any sequence of collector operations the request and snapshot
buffers respect their capacities (`C`, resp. `1000`). -/
theorem request_buffer_keeps_last_C (C : ℕ) (t0 : Time) (ms : List RequestMetrics)
    (h : C < ms.length) (ops : List CollectorOp) :
    ((ms.foldl record_request (MetricsCollector.init C t0)).request_metrics
        = ms.drop (ms.length - C)
      ∧ (ms.foldl record_request (MetricsCollector.init C t0)).request_metrics.length = C)
    ∧ (ops.foldl applyOp (MetricsCollector.init C t0)).request_metrics.length ≤ C
    ∧ (ops.foldl applyOp (MetricsCollector.init C t0)).system_metrics.length ≤ 1000 := by
  have hbuf : (ms.foldl record_request (MetricsCollector.init C t0)).request_metrics
      = ms.drop (ms.length - C) := by
    rw [foldl_record_request_buffer]
    exact foldl_dequeAppend C ms
  have hlen := foldl_applyOp_lengths ops (MetricsCollector.init C t0)
    (by simp [MetricsCollector.init]) (by simp [MetricsCollector.init])
  refine ⟨⟨hbuf, ?_⟩, hlen.1, hlen.2⟩
  rw [hbuf]
  simp only [List.length_drop]
  omega

/-- Witness for `request_buffer_keeps_last_C` at `C = 2` and a concrete
three-element ingestion sequence. -/
theorem request_buffer_keeps_last_C_w :
    (fixtureRecords.foldl record_request (MetricsCollector.init 2 0)).request_metrics
        = fixtureRecords.drop (fixtureRecords.length - 2)
      ∧ (fixtureRecords.foldl record_request (MetricsCollector.init 2 0)).request_metrics.length
        = 2 :=
  (request_buffer_keeps_last_C 2 0 fixtureRecords (by decide) []).1

/-! ## Endpoint aggregates -/

lemma record_request_endpoint_count (c : MetricsCollector) (m : RequestMetrics) (k : String) :
    ((record_request c m).endpoint_stats k).count
      = (c.endpoint_stats k).count + (if k = endpointKey m.method m.path then 1 else 0) := by
  by_cases hk : k = endpointKey m.method m.path
  · simp only [record_request, hk, if_true, if_false, ite_true, ite_false]
    split <;> simp
  · simp [record_request, hk]

lemma foldl_record_request_endpoint_count (ms : List RequestMetrics) :
    ∀ (c : MetricsCollector) (k : String),
      ((ms.foldl record_request c).endpoint_stats k).count
        = (c.endpoint_stats k).count
          + (ms.filter (fun m => k = endpointKey m.method m.path)).length := by
  induction ms with
  | nil => intro c k; simp
  | cons m ms ih =>
    intro c k
    simp only [List.foldl_cons, List.filter_cons]
    rw [ih, record_request_endpoint_count]
    by_cases hk : k = endpointKey m.method m.path
    · simp [hk]
      omega
    · simp [hk]

/-- C3: after any sequence of `record_request` calls from a fresh
collector, the `EndpointStat.count` of a key equals the number of records
ever submitted with that method and path — independent of how many of
them were evicted from the bounded request buffer. -/
theorem endpoint_count_counts_all_ingested (C : ℕ) (t0 : Time)
    (ms : List RequestMetrics) (k : String) :
    ((ms.foldl record_request (MetricsCollector.init C t0)).endpoint_stats k).count
      = (ms.filter (fun m => k = endpointKey m.method m.path)).length := by
  rw [foldl_record_request_endpoint_count]
  simp [MetricsCollector.init, EndpointStat.init]

/-! ## Percentile indices and the aggregator -/

lemma percentile_index_lt (n p : ℕ) (hn : 1 ≤ n) (hp : p < 100) : n * p / 100 < n := by
  rw [Nat.div_lt_iff_lt_mul (by norm_num : (0 : ℕ) < 100)]
  exact (Nat.mul_lt_mul_left hn).mpr hp

lemma floor_mul_95 (n : ℕ) : Nat.floor ((n : ℚ) * (95 / 100)) = n * 95 / 100 := by
  have h : ((n : ℚ) * (95 / 100)) = ((n * 95 : ℕ) : ℚ) / ((100 : ℕ) : ℚ) := by
    push_cast
    ring
  rw [h, Nat.floor_div_nat, Nat.floor_natCast]

lemma floor_mul_99 (n : ℕ) : Nat.floor ((n : ℚ) * (99 / 100)) = n * 99 / 100 := by
  have h : ((n : ℚ) * (99 / 100)) = ((n * 99 : ℕ) : ℚ) / ((100 : ℕ) : ℚ) := by
    push_cast
    ring
  rw [h, Nat.floor_div_nat, Nat.floor_natCast]

lemma sortedDurations_length (c : MetricsCollector) (now : Time) (hours : ℕ) :
    (sortedDurations c now hours).length = (periodRequests c now hours).length := by
  rw [sortedDurations, (List.perm_insertionSort _ _).length_eq, List.length_map]

/-- On a non-empty window, `get_metrics_summary` succeeds, and its
count, error rate and percentile fields are characterized against the
window and its ascending-sorted duration list. -/
lemma get_metrics_summary_spec (c : MetricsCollector) (now : Time) (hours : ℕ)
    (h : periodRequests c now hours ≠ []) :
    ∃ s, get_metrics_summary c now hours = .ok s
      ∧ s.total_requests = (periodRequests c now hours).length
      ∧ s.error_rate
          = (((periodRequests c now hours).filter (fun m => 400 ≤ m.status_code)).length : ℚ)
            / (periodRequests c now hours).length
      ∧ (sortedDurations c now hours).get? ((periodRequests c now hours).length * 95 / 100)
          = some s.p95
      ∧ (sortedDurations c now hours).get? ((periodRequests c now hours).length * 99 / 100)
          = some s.p99 := by
  have hne : (periodRequests c now hours).isEmpty = false := by
    simpa [List.isEmpty_iff] using h
  have hn : 1 ≤ (periodRequests c now hours).length := List.length_pos.mpr h
  have h95 : (periodRequests c now hours).length * 95 / 100
      < (sortedDurations c now hours).length := by
    rw [sortedDurations_length]
    exact percentile_index_lt _ _ hn (by norm_num)
  have h99 : (periodRequests c now hours).length * 99 / 100
      < (sortedDurations c now hours).length := by
    rw [sortedDurations_length]
    exact percentile_index_lt _ _ hn (by norm_num)
  have hv95 := List.get?_eq_get h95
  have hv99 := List.get?_eq_get h99
  unfold get_metrics_summary
  simp only [hne, Bool.false_eq_true, if_false, List.length_map]
  rw [show ((periodRequests c now hours).map (·.duration)).insertionSort (· ≤ ·)
      = sortedDurations c now hours from rfl]
  rw [hv95, hv99]
  exact ⟨_, rfl, rfl, rfl, rfl, rfl⟩

lemma foldl_record_request_system (ms : List RequestMetrics) :
    ∀ c : MetricsCollector, (ms.foldl record_request c).system_metrics = c.system_metrics := by
  induction ms with
  | nil => intro c; rfl
  | cons m ms ih =>
    intro c
    simp only [List.foldl_cons]
    rw [ih]
    simp

lemma fixtureRecords_map_duration : fixtureRecords.map (·.duration) = fixtureDurations := rfl

lemma fixtureCollector_buffer : fixtureCollector.request_metrics = fixtureRecords := by
  rw [fixtureCollector, foldl_record_request_buffer]
  show fixtureRecords.foldl (dequeAppend 10000) [] = fixtureRecords
  rw [foldl_dequeAppend]
  have hl : fixtureRecords.length = 10 := by simp [fixtureRecords, fixtureDurations]
  rw [hl]
  norm_num

lemma fixture_period : periodRequests fixtureCollector 0 1 = fixtureRecords := by
  rw [periodRequests, fixtureCollector_buffer]
  rw [List.filter_eq_self]
  intro a ha
  simp only [fixtureRecords, fixtureDurations, List.mem_map] at ha
  obtain ⟨d, _, rfl⟩ := ha
  simp only [decide_eq_true_eq]
  norm_num

lemma fixture_period_ne : periodRequests fixtureCollector 0 1 ≠ [] := by
  rw [fixture_period]
  simp [fixtureRecords, fixtureDurations]

lemma fixtureDurations_sorted : fixtureDurations.Sorted (· ≤ ·) := by
  norm_num [fixtureDurations, List.sorted_cons]

lemma fixture_sortedDurations : sortedDurations fixtureCollector 0 1 = fixtureDurations := by
  rw [sortedDurations, fixture_period, fixtureRecords_map_duration]
  exact List.Sorted.insertionSort_eq fixtureDurations_sorted

/-- C1: on every non-empty lookback window, the reported p95 (p99)
response time is the element of the ascending-sorted duration list at
index `⌊len * 0.95⌋` (`⌊len * 0.99⌋`), with no interpolation; on the
ten-duration fixture `0.1, ..., 1.0` both equal `1.0`. -/
theorem p95_p99_truncated_index (c : MetricsCollector) (now : Time) (hours : ℕ)
    (h : periodRequests c now hours ≠ []) :
    (∃ s, get_metrics_summary c now hours = .ok s
      ∧ (sortedDurations c now hours).get?
          (Nat.floor (((periodRequests c now hours).length : ℚ) * (95 / 100))) = some s.p95
      ∧ (sortedDurations c now hours).get?
          (Nat.floor (((periodRequests c now hours).length : ℚ) * (99 / 100))) = some s.p99
      ∧ (sortedDurations c now hours).Sorted (· ≤ ·)
      ∧ (sortedDurations c now hours).Perm ((periodRequests c now hours).map (·.duration)))
    ∧ (∃ s, get_metrics_summary fixtureCollector 0 1 = .ok s ∧ s.p95 = 1 ∧ s.p99 = 1) := by
  constructor
  · obtain ⟨s, hok, _, _, h95, h99⟩ := get_metrics_summary_spec c now hours h
    refine ⟨s, hok, ?_, ?_, ?_, ?_⟩
    · rw [floor_mul_95]
      exact h95
    · rw [floor_mul_99]
      exact h99
    · exact List.sorted_insertionSort _ _
    · exact List.perm_insertionSort _ _
  · obtain ⟨s, hok, _, _, h95, h99⟩ :=
      get_metrics_summary_spec fixtureCollector 0 1 fixture_period_ne
    have hlen10 : (periodRequests fixtureCollector 0 1).length = 10 := by
      rw [fixture_period]
      simp [fixtureRecords, fixtureDurations]
    rw [hlen10, fixture_sortedDurations] at h95 h99
    norm_num at h95 h99
    have hg9 : fixtureDurations.get? 9 = some 1 := rfl
    exact ⟨s, hok, (Option.some.inj (hg9.symm.trans h95)).symm,
      (Option.some.inj (hg9.symm.trans h99)).symm⟩

/-- Witness for `p95_p99_truncated_index` at the ten-duration fixture. -/
theorem p95_p99_truncated_index_w :
    ∃ s, get_metrics_summary fixtureCollector 0 1 = .ok s ∧ s.p95 = 1 ∧ s.p99 = 1 :=
  (p95_p99_truncated_index fixtureCollector 0 1 fixture_period_ne).2

/-- C8: for every hours value, a window with zero records yields exactly
the "no data" indicator; the summary never reaches the catch-all
exception branch, and a successful result's error rate is the ratio of
error count to a positive total (no division by zero). -/
theorem metrics_summary_empty_no_data (c : MetricsCollector) (now : Time) (hours : ℕ) :
    (get_metrics_summary c now hours = .noData ↔ periodRequests c now hours = [])
    ∧ get_metrics_summary c now hours ≠ .caught
    ∧ (∀ s, get_metrics_summary c now hours = .ok s →
        0 < (periodRequests c now hours).length
        ∧ s.error_rate
            = (((periodRequests c now hours).filter (fun m => 400 ≤ m.status_code)).length : ℚ)
              / (periodRequests c now hours).length) := by
  by_cases h : periodRequests c now hours = []
  · have hnd : get_metrics_summary c now hours = .noData := by
      unfold get_metrics_summary
      simp [h]
    refine ⟨⟨fun _ => h, fun _ => hnd⟩, ?_, ?_⟩
    · rw [hnd]
      simp
    · intro s hs
      rw [hnd] at hs
      exact absurd hs (by simp)
  · obtain ⟨s, hok, _, herr, _, _⟩ := get_metrics_summary_spec c now hours h
    refine ⟨⟨?_, fun he => absurd he h⟩, ?_, ?_⟩
    · intro hnd
      rw [hok] at hnd
      exact absurd hnd (by simp)
    · rw [hok]
      simp
    · intro s' hs'
      have hss : s = s' := by
        rw [hok] at hs'
        exact SummaryResult.ok.inj hs'
      exact ⟨List.length_pos.mpr h, hss ▸ herr⟩

/-- Witness for `metrics_summary_empty_no_data`: a fresh collector has an
empty one-hour window and reports "no data". -/
theorem metrics_summary_empty_no_data_w :
    get_metrics_summary (MetricsCollector.init 10000 0) 0 1 = .noData :=
  (metrics_summary_empty_no_data (MetricsCollector.init 10000 0) 0 1).1.mpr rfl

/-- C10: for a non-empty list of length `n` the percentile indices
`int(n*0.95)`, `int(n*0.99)` and `n // 2` are strictly below `n`, and
consequently — together with the empty-window guards — neither
`get_operation_stats` nor `get_metrics_summary` ever escapes with an
out-of-bounds indexing error. -/
theorem percentile_indexing_in_bounds (n : ℕ) (h : 1 ≤ n) :
    (n * 95 / 100 < n ∧ n * 99 / 100 < n ∧ n / 2 < n)
    ∧ (∀ times : List ℚ, get_operation_stats times ≠ .indexOut)
    ∧ (∀ (c : MetricsCollector) (now : Time) (hours : ℕ),
        get_metrics_summary c now hours ≠ .caught) := by
  refine ⟨⟨percentile_index_lt n 95 h (by norm_num),
    percentile_index_lt n 99 h (by norm_num),
    Nat.div_lt_self h (by norm_num)⟩, ?_, ?_⟩
  · intro times
    cases times with
    | nil => simp [get_operation_stats]
    | cons x xs =>
      have hne : (x :: xs).isEmpty = false := rfl
      have hn : 1 ≤ ((x :: xs).insertionSort (· ≤ ·)).length := by
        rw [(List.perm_insertionSort _ _).length_eq]
        simp
      have hmin : (x :: xs).min? = some (xs.foldl min x) := rfl
      have hmax : (x :: xs).max? = some (xs.foldl max x) := rfl
      have hg50 := List.get?_eq_get
        (Nat.div_lt_self hn (by norm_num)
          : ((x :: xs).insertionSort (· ≤ ·)).length / 2
            < ((x :: xs).insertionSort (· ≤ ·)).length)
      have hg95 := List.get?_eq_get
        (percentile_index_lt _ 95 hn (by norm_num)
          : ((x :: xs).insertionSort (· ≤ ·)).length * 95 / 100
            < ((x :: xs).insertionSort (· ≤ ·)).length)
      have hg99 := List.get?_eq_get
        (percentile_index_lt _ 99 hn (by norm_num)
          : ((x :: xs).insertionSort (· ≤ ·)).length * 99 / 100
            < ((x :: xs).insertionSort (· ≤ ·)).length)
      unfold get_operation_stats
      simp only [hne, Bool.false_eq_true, if_false]
      rw [hmin, hmax, hg50, hg95, hg99]
      simp
  · intro c now hours
    by_cases hp : periodRequests c now hours = []
    · have hnd : get_metrics_summary c now hours = .noData := by
        unfold get_metrics_summary
        simp [hp]
      rw [hnd]
      simp
    · obtain ⟨s, hok, _⟩ := get_metrics_summary_spec c now hours hp
      rw [hok]
      simp

/-- Witness for `percentile_indexing_in_bounds` at `n = 10`: both
percentile indices and the median index are in bounds. -/
theorem percentile_indexing_in_bounds_w :
    10 * 95 / 100 < 10 ∧ 10 * 99 / 100 < 10 ∧ 10 / 2 < 10 :=
  (percentile_indexing_in_bounds 10 (by norm_num)).1

/-! ## Health evaluation -/

@[simp] lemma record_system_metrics_system (c : MetricsCollector) (now : Time)
    (s : SystemSample) : (record_system_metrics c now s).system_metrics
      = dequeAppend 1000 c.system_metrics (snapshotOf c now s) := rfl

@[simp] lemma get_health_status_error_rate (c : MetricsCollector) (now : Time) :
    (get_health_status c now).error_rate = errorRate5min c now := rfl

lemma scenario_buffer : scenarioCollector.request_metrics = scenarioRecords := by
  rw [scenarioCollector, foldl_record_request_buffer]
  show scenarioRecords.foldl (dequeAppend 10000) [] = scenarioRecords
  rw [foldl_dequeAppend]
  norm_num [scenarioRecords]

lemma scenario_system : scenarioCollector.system_metrics = [] := by
  rw [scenarioCollector, foldl_record_request_system]
  rfl

lemma scenarioRecords_filter_le (t : ℚ) (ht : t ≤ 0) :
    scenarioRecords.filter (fun m => t ≤ m.timestamp) = scenarioRecords := by
  rw [List.filter_eq_self]
  intro a ha
  simp only [scenarioRecords, List.mem_cons, List.not_mem_nil, or_false] at ha
  rcases ha with rfl | rfl | rfl | rfl | rfl | rfl <;> simpa using ht

lemma errorRate5min_scenario (c : MetricsCollector)
    (hb : c.request_metrics = scenarioRecords) : errorRate5min c 0 = 1/6 := by
  unfold errorRate5min recentRequests
  rw [hb, scenarioRecords_filter_le _ (by norm_num)]
  norm_num [scenarioRecords]

/-- The status/issues classification actually implemented by
`get_health_status` once a snapshot exists: the error-rate escalation sits
inside the snapshot guard, and unhealthy overrides degraded. -/
lemma health_classification (c : MetricsCollector) (now : Time) (s : SystemMetrics)
    (h : c.system_metrics.getLast? = some s) :
    (get_health_status c now).status
        = (if 1/10 < errorRate5min c now then "unhealthy"
           else if 80 < s.cpu_percent ∨ 85 < s.memory_percent then "degraded"
           else "healthy")
    ∧ (get_health_status c now).issues
        = (if 80 < s.cpu_percent then ["High CPU usage"] else [])
          ++ (if 85 < s.memory_percent then ["High memory usage"] else [])
          ++ (if 1/10 < errorRate5min c now then ["High error rate"] else []) := by
  unfold get_health_status
  rw [h]
  by_cases h1 : 80 < s.cpu_percent <;> by_cases h2 : 85 < s.memory_percent <;>
    by_cases h3 : 1/10 < errorRate5min c now <;>
    simp only [h1, h2, h3, if_true, if_false, ite_true, ite_false, or_self, or_true,
      true_or, false_or, or_false, List.cons_append, List.nil_append, and_self]

/-- C4 counterexample: five requests at status 200 and one at status 500
give a trailing-five-minute error rate of `1/6 > 10 %`, yet — because the
snapshot buffer is empty and the error-rate escalation sits inside the
snapshot guard — `get_health_status` reports `"healthy"`, not
`"unhealthy"` as the claim requires. -/
theorem health_unhealthy_needs_snapshot_cex :
    (get_health_status scenarioCollector 0).error_rate = 1/6
    ∧ 1/10 < (get_health_status scenarioCollector 0).error_rate
    ∧ (get_health_status scenarioCollector 0).status = "healthy" := by
  have her : errorRate5min scenarioCollector 0 = 1/6 :=
    errorRate5min_scenario _ scenario_buffer
  have hst : (get_health_status scenarioCollector 0).status = "healthy" := by
    unfold get_health_status
    rw [scenario_system]
    rfl
  refine ⟨by rw [get_health_status_error_rate, her], ?_, hst⟩
  rw [get_health_status_error_rate, her]
  norm_num

/-- C4 amended: once at least one `SystemSnapshot` exists, status is
`"unhealthy"` when the trailing-5-minute error rate exceeds 10 %
(overriding degraded), `"degraded"` when the latest snapshot has CPU > 80
or memory > 85, else `"healthy"`, with one issues entry per triggered
condition; with an empty snapshot buffer the status stays `"healthy"`
regardless of the error rate; the 5×200 + 1×500 scenario yields error
rate 1/6 and status `"unhealthy"` provided a snapshot is present. -/
theorem health_status_classification (c : MetricsCollector) (now : Time) (s : SystemMetrics)
    (h : c.system_metrics.getLast? = some s) :
    ((get_health_status c now).status
        = (if 1/10 < errorRate5min c now then "unhealthy"
           else if 80 < s.cpu_percent ∨ 85 < s.memory_percent then "degraded"
           else "healthy")
      ∧ (get_health_status c now).issues
        = (if 80 < s.cpu_percent then ["High CPU usage"] else [])
          ++ (if 85 < s.memory_percent then ["High memory usage"] else [])
          ++ (if 1/10 < errorRate5min c now then ["High error rate"] else []))
    ∧ (∀ c' : MetricsCollector, c'.system_metrics = [] →
        (get_health_status c' now).status = "healthy")
    ∧ ((get_health_status scenarioCollectorWithSnapshot 0).error_rate = 1/6
      ∧ (get_health_status scenarioCollectorWithSnapshot 0).status = "unhealthy"
      ∧ "High error rate" ∈ (get_health_status scenarioCollectorWithSnapshot 0).issues) := by
  refine ⟨health_classification c now s h, ?_, ?_⟩
  · intro c' hc'
    unfold get_health_status
    rw [hc']
    rfl
  · have hb : scenarioCollectorWithSnapshot.request_metrics = scenarioRecords := by
      rw [scenarioCollectorWithSnapshot, record_system_metrics_request_metrics,
        scenario_buffer]
    have her : errorRate5min scenarioCollectorWithSnapshot 0 = 1/6 :=
      errorRate5min_scenario _ hb
    have hsnap : scenarioCollectorWithSnapshot.system_metrics.getLast?
        = some (snapshotOf scenarioCollector 0
            { cpu_percent := 10, memory_percent := 10, memory_mb := 100,
              disk_percent := 10, active_connections := 1 }) := by
      rw [scenarioCollectorWithSnapshot, record_system_metrics_system, scenario_system]
      norm_num [dequeAppend]
    obtain ⟨hst, hiss⟩ := health_classification scenarioCollectorWithSnapshot 0 _ hsnap
    have hcpu : (snapshotOf scenarioCollector 0
        { cpu_percent := 10, memory_percent := 10, memory_mb := 100,
          disk_percent := 10, active_connections := 1 }).cpu_percent = 10 := rfl
    have hmem : (snapshotOf scenarioCollector 0
        { cpu_percent := 10, memory_percent := 10, memory_mb := 100,
          disk_percent := 10, active_connections := 1 }).memory_percent = 10 := rfl
    refine ⟨by rw [get_health_status_error_rate, her], ?_, ?_⟩
    · rw [hst, her, hcpu, hmem]
      norm_num
    · rw [hiss, her, hcpu, hmem]
      norm_num

/-- Witness for `health_status_classification` at the scenario collector
carrying one benign snapshot. -/
theorem health_status_classification_w :
    (get_health_status scenarioCollectorWithSnapshot 0).error_rate = 1/6
    ∧ (get_health_status scenarioCollectorWithSnapshot 0).status = "unhealthy"
    ∧ "High error rate" ∈ (get_health_status scenarioCollectorWithSnapshot 0).issues := by
  have hsnap : scenarioCollectorWithSnapshot.system_metrics.getLast?
      = some (snapshotOf scenarioCollector 0
          { cpu_percent := 10, memory_percent := 10, memory_mb := 100,
            disk_percent := 10, active_connections := 1 }) := by
    rw [scenarioCollectorWithSnapshot, record_system_metrics_system, scenario_system]
    norm_num [dequeAppend]
  exact (health_status_classification scenarioCollectorWithSnapshot 0 _ hsnap).2.2

/-! ## Alert cooldown -/

lemma trigger_alert_suppressed (am : AlertManager) (now : Time) (ty sev : String) :
    (trigger_alert am now ty sev).2 = [] → (trigger_alert am now ty sev).1 = am := by
  unfold trigger_alert
  cases h : am.alert_history ty with
  | none => simp
  | some last =>
    by_cases hc : now - last < 300 <;> simp [hc]

lemma trigger_times_gap (ty sev : String) :
    ∀ (ts : List Time) (am : AlertManager),
      ((trigger_times ty sev am ts).2.map (·.fired_at)).Pairwise (fun a b => 300 ≤ b - a)
      ∧ (∀ v, am.alert_history ty = some v →
          ∀ a ∈ (trigger_times ty sev am ts).2, 300 ≤ a.fired_at - v) := by
  intro ts
  induction ts with
  | nil =>
    intro am
    refine ⟨by simp [trigger_times], ?_⟩
    intro v _ a ha
    simp [trigger_times] at ha
  | cons t ts ih =>
    intro am
    simp only [trigger_times]
    cases h : am.alert_history ty with
    | none =>
      simp only [trigger_alert, h]
      have hh : (⟨fun k => if k = ty then some t else am.alert_history k⟩
          : AlertManager).alert_history ty = some t := by simp
      refine ⟨?_, ?_⟩
      · simp only [List.cons_append, List.nil_append, List.map_cons, List.pairwise_cons]
        refine ⟨?_, (ih _).1⟩
        intro b hb
        obtain ⟨a, ha, rfl⟩ := List.mem_map.mp hb
        exact (ih _).2 t hh a ha
      · intro v hv
        exact absurd hv (by simp)
    | some last =>
      by_cases hc : t - last < 300
      · simp only [trigger_alert, h, hc, if_true, List.nil_append]
        refine ⟨(ih am).1, ?_⟩
        intro v hv a ha
        obtain rfl : last = v := Option.some.inj hv
        exact (ih am).2 last h a ha
      · simp only [trigger_alert, h, hc, if_false, List.cons_append, List.nil_append]
        have hh : (⟨fun k => if k = ty then some t else am.alert_history k⟩
            : AlertManager).alert_history ty = some t := by simp
        refine ⟨?_, ?_⟩
        · simp only [List.map_cons, List.pairwise_cons]
          refine ⟨?_, (ih _).1⟩
          intro b hb
          obtain ⟨a, ha, rfl⟩ := List.mem_map.mp hb
          exact (ih _).2 t hh a ha
        · intro v hv
          obtain rfl : last = v := Option.some.inj hv
          intro a ha
          rcases List.mem_cons.mp ha with rfl | ha
          · show 300 ≤ t - last
            linarith [not_lt.mp hc]
          · have h1 := (ih _).2 t hh a ha
            have h2 : (300 : ℚ) ≤ t - last := not_lt.mp hc
            linarith

/-- C5: over any sequence of `_trigger_alert` invocations for one alert
type, the emitted alerts are pairwise at least the 300-second cooldown
apart; the per-type last-fired timestamp is left unchanged whenever the
alert is suppressed; and the spec's scenario — triggering at t = 0, 60 and
301 seconds — emits exactly the two alerts at t = 0 and t = 301. -/
theorem alert_cooldown (ty sev : String) (ts : List Time) (am : AlertManager) :
    ((trigger_times ty sev am ts).2.map (·.fired_at)).Pairwise (fun a b => 300 ≤ b - a)
    ∧ (∀ (am' : AlertManager) (now : Time),
        (trigger_alert am' now ty sev).2 = [] → (trigger_alert am' now ty sev).1 = am')
    ∧ (trigger_times "x" "critical" AlertManager.init [0, 60, 301]).2.map (·.fired_at)
        = [0, 301] := by
  refine ⟨(trigger_times_gap ty sev ts am).1,
    fun am' now => trigger_alert_suppressed am' now ty sev, ?_⟩
  norm_num [trigger_times, trigger_alert, AlertManager.init]

/-- Witness for `alert_cooldown`: the concrete three-trigger scenario. -/
theorem alert_cooldown_w :
    (trigger_times "x" "critical" AlertManager.init [0, 60, 301]).2.map (·.fired_at)
      = [0, 301] :=
  (alert_cooldown "x" "critical" [] AlertManager.init).2.2

/-! ## Alert checking -/

lemma trigger_alert_fresh_fires (am : AlertManager) (now : Time) (ty sev : String)
    (h : am.alert_history ty = none) :
    (trigger_alert am now ty sev).2 = [⟨ty, sev, now⟩] := by
  unfold trigger_alert
  rw [h]

lemma trigger_alert_history_ne (am : AlertManager) (now : Time) (ty sev k : String)
    (hk : k ≠ ty) :
    (trigger_alert am now ty sev).1.alert_history k = am.alert_history k := by
  unfold trigger_alert
  cases h : am.alert_history ty with
  | none => simp [hk]
  | some last => by_cases hc : now - last < 300 <;> simp [hc, hk]

lemma trigger_alert_types (am : AlertManager) (now : Time) (ty sev : String) :
    ∀ a ∈ (trigger_alert am now ty sev).2, a.alert_type = ty := by
  unfold trigger_alert
  cases h : am.alert_history ty with
  | none => simp
  | some last => by_cases hc : now - last < 300 <;> simp [hc]

lemma checkStep_snd (am : AlertManager) (now : Time) (cond : Bool) (ty sev : String)
    (h : am.alert_history ty = none) :
    (checkStep am now cond ty sev).2 = if cond then [⟨ty, sev, now⟩] else [] := by
  cases cond with
  | false => rfl
  | true => simpa [checkStep] using trigger_alert_fresh_fires am now ty sev h

lemma checkStep_history (am : AlertManager) (now : Time) (cond : Bool) (ty sev k : String)
    (hk : k ≠ ty) :
    (checkStep am now cond ty sev).1.alert_history k = am.alert_history k := by
  cases cond with
  | false => rfl
  | true => simpa [checkStep] using trigger_alert_history_ne am now ty sev k hk

lemma checkStep_types (am : AlertManager) (now : Time) (cond : Bool) (ty sev : String) :
    ∀ a ∈ (checkStep am now cond ty sev).2, a.alert_type = ty := by
  cases cond with
  | false => simp [checkStep]
  | true =>
    intro a ha
    exact trigger_alert_types am now ty sev a (by simpa [checkStep] using ha)

/-- On a manager with no alert history, `check_alerts` emits exactly one
alert per satisfied condition: error rate (critical), average response
time against the p95 threshold (warning), CPU (warning), memory
(critical) — and nothing else. -/
lemma check_alerts_fresh_fires (am : AlertManager) (c : MetricsCollector) (now : Time)
    (h : ∀ ty, am.alert_history ty = none) :
    (check_alerts am c now).2
      = (if errCond (get_health_status c now)
          then [⟨"high_error_rate", "critical", now⟩] else [])
        ++ (if avgCond (get_health_status c now)
          then [⟨"slow_response_time", "warning", now⟩] else [])
        ++ (if cpuCond (get_health_status c now)
          then [⟨"high_cpu_usage", "warning", now⟩] else [])
        ++ (if memCond (get_health_status c now)
          then [⟨"high_memory_usage", "critical", now⟩] else []) := by
  have e2 : (checkStep am now (errCond (get_health_status c now))
      "high_error_rate" "critical").1.alert_history "slow_response_time" = none := by
    rw [checkStep_history _ _ _ _ _ _ (by decide)]
    exact h _
  have e3 : (checkStep (checkStep am now (errCond (get_health_status c now))
        "high_error_rate" "critical").1 now (avgCond (get_health_status c now))
      "slow_response_time" "warning").1.alert_history "high_cpu_usage" = none := by
    rw [checkStep_history _ _ _ _ _ _ (by decide),
      checkStep_history _ _ _ _ _ _ (by decide)]
    exact h _
  have e4 : (checkStep (checkStep (checkStep am now (errCond (get_health_status c now))
          "high_error_rate" "critical").1 now (avgCond (get_health_status c now))
        "slow_response_time" "warning").1 now (cpuCond (get_health_status c now))
      "high_cpu_usage" "warning").1.alert_history "high_memory_usage" = none := by
    rw [checkStep_history _ _ _ _ _ _ (by decide),
      checkStep_history _ _ _ _ _ _ (by decide),
      checkStep_history _ _ _ _ _ _ (by decide)]
    exact h _
  show (checkStep am now (errCond (get_health_status c now))
        "high_error_rate" "critical").2 ++ _ ++ _ ++ _ = _
  rw [checkStep_snd _ _ _ _ _ (h _), checkStep_snd _ _ _ _ _ e2,
    checkStep_snd _ _ _ _ _ e3, checkStep_snd _ _ _ _ _ e4]

/-- Every alert ever emitted by `check_alerts` is one of the four checked
types; in particular no disk alert is ever emitted. -/
lemma check_alerts_types (am : AlertManager) (c : MetricsCollector) (now : Time) :
    ∀ a ∈ (check_alerts am c now).2,
      a.alert_type = "high_error_rate" ∨ a.alert_type = "slow_response_time"
      ∨ a.alert_type = "high_cpu_usage" ∨ a.alert_type = "high_memory_usage" := by
  intro a ha
  have ha' : a ∈ _ ++ _ ++ _ ++ _ := ha
  rcases List.mem_append.mp ha' with h123 | h4
  · rcases List.mem_append.mp h123 with h12 | h3
    · rcases List.mem_append.mp h12 with h1 | h2
      · exact Or.inl (checkStep_types _ _ _ _ _ a h1)
      · exact Or.inr (Or.inl (checkStep_types _ _ _ _ _ a h2))
    · exact Or.inr (Or.inr (Or.inl (checkStep_types _ _ _ _ _ a h3)))
  · exact Or.inr (Or.inr (Or.inr (checkStep_types _ _ _ _ _ a h4)))

@[simp] lemma get_health_status_avg (c : MetricsCollector) (now : Time) :
    (get_health_status c now).avg_response_time
      = c.system_metrics.getLast?.map (·.avg_response_time) := rfl

@[simp] lemma get_health_status_cpu (c : MetricsCollector) (now : Time) :
    (get_health_status c now).cpu_percent
      = c.system_metrics.getLast?.map (·.cpu_percent) := rfl

@[simp] lemma get_health_status_mem (c : MetricsCollector) (now : Time) :
    (get_health_status c now).memory_percent
      = c.system_metrics.getLast?.map (·.memory_percent) := rfl

/-- A collector holding one snapshot and no requests exposes: error rate
0, average response time 0, and the sample's CPU/memory readings. -/
lemma fresh_snapshot_health (s : SystemSample) (c : MetricsCollector)
    (hc : c = record_system_metrics (MetricsCollector.init 10000 0) 0 s) :
    (get_health_status c 0).error_rate = 0
    ∧ (get_health_status c 0).avg_response_time = some 0
    ∧ (get_health_status c 0).cpu_percent = some s.cpu_percent
    ∧ (get_health_status c 0).memory_percent = some s.memory_percent := by
  subst hc
  have hsys : (record_system_metrics (MetricsCollector.init 10000 0) 0 s).system_metrics
      = [snapshotOf (MetricsCollector.init 10000 0) 0 s] := by
    rw [record_system_metrics_system]
    norm_num [dequeAppend, MetricsCollector.init]
  refine ⟨?_, ?_, ?_, ?_⟩
  · rw [get_health_status_error_rate]
    rfl
  · rw [get_health_status_avg, hsys]
    rfl
  · rw [get_health_status_cpu, hsys]
    rfl
  · rw [get_health_status_mem, hsys]
    rfl

/-- C6 counterexample: a collector whose only snapshot reports 95 % disk
usage — beyond the configured 90 % `disk_percent` threshold — produces no
alert at all on a fresh manager: `check_alerts` never consults the disk
threshold, so no disk alert is fired for the exceeded threshold. -/
theorem check_alerts_disk_never_fires_cex :
    alert_thresholds.disk_percent
        < (snapshotOf (MetricsCollector.init 10000 0) 0 diskSample).disk_percent
    ∧ diskCollector.system_metrics.getLast?
        = some (snapshotOf (MetricsCollector.init 10000 0) 0 diskSample)
    ∧ (check_alerts AlertManager.init diskCollector 0).2 = [] := by
  have h := fresh_snapshot_health diskSample diskCollector rfl
  refine ⟨?_, ?_, ?_⟩
  · show (90 : ℚ) < (diskSample.disk_percent : ℚ)
    norm_num [diskSample]
  · rw [show diskCollector.system_metrics
        = [snapshotOf (MetricsCollector.init 10000 0) 0 diskSample] from by
      rw [diskCollector, record_system_metrics_system]
      norm_num [dequeAppend, MetricsCollector.init]]
    rfl
  · rw [check_alerts_fresh_fires AlertManager.init diskCollector 0 (fun _ => rfl)]
    have hErr : errCond (get_health_status diskCollector 0) = false := by
      simp only [errCond, h.1, decide_eq_false_iff_not]
      norm_num [alert_thresholds]
    have hAvg : avgCond (get_health_status diskCollector 0) = false := by
      simp only [avgCond, h.2.1, decide_eq_false_iff_not]
      norm_num [alert_thresholds]
    have hCpu : cpuCond (get_health_status diskCollector 0) = false := by
      simp only [cpuCond, h.2.2.1, decide_eq_false_iff_not]
      norm_num [alert_thresholds, diskSample]
    have hMem : memCond (get_health_status diskCollector 0) = false := by
      simp only [memCond, h.2.2.2, decide_eq_false_iff_not]
      norm_num [alert_thresholds, diskSample]
    rw [hErr, hAvg, hCpu, hMem]
    rfl

/-- C6 amended: on each check pass the manager fires one alert per
exceeded condition among: trailing error rate above the 5 % threshold
(critical), the latest snapshot's average response time above the 2.0 s
`response_time_p95` threshold (warning), CPU above 80 % (warning) and
memory above 85 % (critical), in that order.  The configured 90 %
`disk_percent` threshold is never consulted: every alert the manager ever
emits carries one of those four types, so no disk alert exists. -/
theorem check_alerts_fires (am : AlertManager) (c : MetricsCollector) (now : Time)
    (h : ∀ ty, am.alert_history ty = none) :
    ((check_alerts am c now).2
      = (if errCond (get_health_status c now)
          then [⟨"high_error_rate", "critical", now⟩] else [])
        ++ (if avgCond (get_health_status c now)
          then [⟨"slow_response_time", "warning", now⟩] else [])
        ++ (if cpuCond (get_health_status c now)
          then [⟨"high_cpu_usage", "warning", now⟩] else [])
        ++ (if memCond (get_health_status c now)
          then [⟨"high_memory_usage", "critical", now⟩] else []))
    ∧ (∀ (am' : AlertManager) (c' : MetricsCollector) (now' : Time),
        ∀ a ∈ (check_alerts am' c' now').2,
          a.alert_type = "high_error_rate" ∨ a.alert_type = "slow_response_time"
          ∨ a.alert_type = "high_cpu_usage" ∨ a.alert_type = "high_memory_usage") :=
  ⟨check_alerts_fresh_fires am c now h, fun am' c' now' => check_alerts_types am' c' now'⟩

/-- Witness for `check_alerts_fires`: on a fresh manager and a collector
whose snapshot shows 90 % CPU, exactly the CPU alert fires. -/
theorem check_alerts_fires_w :
    (check_alerts AlertManager.init cpuCollector 0).2
      = [⟨"high_cpu_usage", "warning", 0⟩] := by
  have h := fresh_snapshot_health
    { cpu_percent := 90, memory_percent := 10, memory_mb := 100,
      disk_percent := 10, active_connections := 1 } cpuCollector rfl
  rw [(check_alerts_fires AlertManager.init cpuCollector 0 (fun _ => rfl)).1]
  have hErr : errCond (get_health_status cpuCollector 0) = false := by
    simp only [errCond, h.1, decide_eq_false_iff_not]
    norm_num [alert_thresholds]
  have hAvg : avgCond (get_health_status cpuCollector 0) = false := by
    simp only [avgCond, h.2.1, decide_eq_false_iff_not]
    norm_num [alert_thresholds]
  have hCpu : cpuCond (get_health_status cpuCollector 0) = true := by
    simp only [cpuCond, h.2.2.1, decide_eq_true_eq]
    norm_num [alert_thresholds]
  have hMem : memCond (get_health_status cpuCollector 0) = false := by
    simp only [memCond, h.2.2.2, decide_eq_false_iff_not]
    norm_num [alert_thresholds]
  rw [hErr, hAvg, hCpu, hMem]
  rfl

/-! ## Alert-pass failure semantics -/

/-- C7 counterexample: when the first condition of a pass raises, the
remaining conditions — which would all have fired — are never evaluated
(no alert is emitted, the caught failure is logged), whereas the
identical pass whose first condition merely stays quiet does evaluate and
fire them.  The single `try`/`except` around the pass therefore does not
isolate a failing condition from the remaining ones. -/
theorem alert_pass_abort_cex :
    runAlertPass 0 [.raises, .fires, .fires, .fires] = ([], true)
    ∧ runAlertPass 0 [.quiet, .fires, .fires, .fires] = ([1, 2, 3], false) := by
  constructor <;> rfl

/-- C7 amended: a failure while evaluating an alert condition is caught at
the pass level — the pass returns normally and the failure is logged
(flag `true`) — but it aborts the pass: exactly the alerts of the prefix
before the failing condition are emitted and the conditions after it are
not evaluated. -/
theorem alert_pass_catches_but_aborts (i0 : ℕ) (pre post : List StepResult)
    (h : StepResult.raises ∉ pre) :
    runAlertPass i0 (pre ++ .raises :: post) = ((runAlertPass i0 pre).1, true)
    ∧ (runAlertPass i0 pre).2 = false := by
  induction pre generalizing i0 with
  | nil => exact ⟨rfl, rfl⟩
  | cons x pre ih =>
    have hx : x ≠ .raises := fun he => h (he ▸ List.mem_cons_self _ _)
    have hpre : StepResult.raises ∉ pre := fun hm => h (List.mem_cons_of_mem _ hm)
    obtain ⟨ih1, ih2⟩ := ih (i0 + 1) hpre
    cases x with
    | raises => exact absurd rfl hx
    | fires =>
      exact ⟨by simp only [List.cons_append, runAlertPass, List.append_eq, ih1],
        by simp only [runAlertPass, ih2]⟩
    | quiet =>
      exact ⟨by simp only [List.cons_append, runAlertPass, List.append_eq, ih1],
        by simp only [runAlertPass, ih2]⟩

/-- Witness for `alert_pass_catches_but_aborts`: one firing condition,
then a raising one, then another firing condition. -/
theorem alert_pass_catches_but_aborts_w :
    runAlertPass 0 ([.fires] ++ .raises :: [.fires])
        = ((runAlertPass 0 [.fires]).1, true)
    ∧ (runAlertPass 0 [.fires]).2 = false :=
  alert_pass_catches_but_aborts 0 [.fires] [.fires] (by decide)

/-! ## Monitoring middleware -/

lemma dequeAppend_getLast? (C : ℕ) (hC : 0 < C) (buf : List α) (x : α) :
    (dequeAppend C buf x).getLast? = some x := by
  show ((buf ++ [x]).drop ((buf ++ [x]).length - C)).getLast? = some x
  have hk : (buf ++ [x]).length - C ≤ buf.length := by
    simp only [List.length_append, List.length_cons, List.length_nil]
    omega
  rw [List.drop_append_of_le_length hk, List.getLast?_concat]

/-- C9: for one HTTP request, whatever the wrapped handler does, the
middleware ingests exactly one `RequestMetrics` — the endpoint count of
the request's key rises by exactly one and the record is the newest entry
of the buffer — carrying the final status code (the sent status, or 500
when the handler raised) and the wall-clock duration `t1 - t0`; and a
handler exception is re-raised to the caller after the record is
stored. -/
theorem middleware_records_exactly_once (ε : Type) (c : MetricsCollector)
    (hC : 0 < c.max_history) (method path : String) (outcome : HandlerOutcome ε)
    (t0 t1 now : ℚ) :
    ((middlewareCall ε c method path outcome t0 t1 now).2.endpoint_stats
        (endpointKey method path)).count
      = (c.endpoint_stats (endpointKey method path)).count + 1
    ∧ (middlewareCall ε c method path outcome t0 t1 now).2.request_metrics.getLast?
      = some { timestamp := now, method := method, path := path,
               status_code := (match outcome with | .ok s => s | .raised _ => 500),
               duration := t1 - t0 }
    ∧ (∀ e, outcome = .raised e →
        (middlewareCall ε c method path outcome t0 t1 now).1 = .error e
        ∧ (middlewareCall ε c method path outcome t0 t1 now).2.request_metrics.getLast?
          = some { timestamp := now, method := method, path := path,
                   status_code := 500, duration := t1 - t0 })
    ∧ (∀ s, outcome = .ok s →
        (middlewareCall ε c method path outcome t0 t1 now).1 = .ok s) := by
  have h2 : (middlewareCall ε c method path outcome t0 t1 now).2
      = record_request c { timestamp := now, method := method, path := path,
                           status_code :=
                             (match outcome with | .ok s => s | .raised _ => 500),
                           duration := t1 - t0 } := rfl
  refine ⟨?_, ?_, ?_, ?_⟩
  · rw [h2, record_request_endpoint_count]
    simp
  · rw [h2, record_request_request_metrics]
    exact dequeAppend_getLast? _ hC _ _
  · intro e he
    subst he
    refine ⟨rfl, ?_⟩
    rw [h2, record_request_request_metrics]
    exact dequeAppend_getLast? _ hC _ _
  · intro s hs
    subst hs
    rfl

/-- Witness for `middleware_records_exactly_once`: a raising handler on a
fresh collector still yields exactly one recorded request, and the error
propagates. -/
theorem middleware_records_exactly_once_w :
    ((middlewareCall Unit (MetricsCollector.init 10000 0) "GET" "/test"
        (.raised ()) 0 1 0).2.endpoint_stats (endpointKey "GET" "/test")).count
      = ((MetricsCollector.init 10000 0).endpoint_stats (endpointKey "GET" "/test")).count + 1
    ∧ (middlewareCall Unit (MetricsCollector.init 10000 0) "GET" "/test"
        (.raised ()) 0 1 0).1 = .error () := by
  have h := middleware_records_exactly_once Unit (MetricsCollector.init 10000 0)
    (by decide) "GET" "/test" (.raised ()) 0 1 0
  exact ⟨h.1, (h.2.2.1 () rfl).1⟩

end Monitoring
